import Mathlib

/-!
Verification development for the research-paper summarization pipeline.

Shallow embedding of the persistence layer (src/database/models.py,
src/database/crud.py), the pipeline task bodies
(src/agents/ingestion_processing_agent.py, src/agents/topic_classification_agent.py),
the fan-in collector (src/utils/queue_manager.py) and the CLI synthesis
dispatcher (src/main.py).  Machine values are modelled with Nat and Int,
nullable columns with Option, and a SQL commit that violates a uniqueness
constraint with Except.  External collaborators (PDF and HTML extraction,
DOI resolution, the file system and the language model) are modelled as an
oracle environment, since the spec places them out of scope and the task
bodies only branch on their results.
-/

/-- Paper lifecycle states, from the PaperStatus enum in src/database/models.py. -/
inductive PaperStatus where
  | PENDING
  | PROCESSING
  | PROCESSED
  | FAILED
  | SUMMARIZED
  | CLASSIFIED
deriving DecidableEq

/-- Summary discriminator, from the SummaryType enum in src/database/models.py. -/
inductive SummaryType where
  | INDIVIDUAL_PAPER
  | CROSS_PAPER_SYNTHESIS
deriving DecidableEq

/-- A row of the papers table (src/database/models.py, class Paper). -/
structure Paper where
  id : Nat
  title : String
  abstract : String
  authors : String
  publication_year : Option Int
  doi : Option String
  url : Option String
  local_path : Option String
  status : PaperStatus
deriving DecidableEq

/-- A row of the topics table (src/database/models.py, class Topic). -/
structure Topic where
  id : Nat
  name : String
deriving DecidableEq

/-- A row of the paper_topics association table (src/database/models.py, class PaperTopic). -/
structure PaperTopic where
  paper_id : Nat
  topic_id : Nat
deriving DecidableEq

/-- A row of the summaries table (src/database/models.py, class Summary). -/
structure Summary where
  id : Nat
  paper_id : Option Nat
  topic_id : Option Nat
  summary_type : SummaryType
  content : String
  audio_path : Option String
deriving DecidableEq

/-- A row of the extracted_data table (src/database/models.py, class ExtractedData).
The structured JSON extras are kept as opaque optional strings, as the
orchestrator never inspects them. -/
structure ExtractedData where
  id : Nat
  paper_id : Nat
  full_text_path : Option String
deriving DecidableEq

/-- A row of the citations table (src/database/models.py, class Citation). -/
structure Citation where
  id : Nat
  paper_id : Nat
  citation_text : String
  bibtex_entry : Option String
  doi : Option String
  authors : Option String
  title : Option String
  year : Option Int
deriving DecidableEq

/-- The relational store: all tables of src/database/models.py, plus a single
id source modelling the autoincrement primary keys. -/
structure DB where
  papers : List Paper
  topics : List Topic
  paper_topics : List PaperTopic
  summaries : List Summary
  extracted_data : List ExtractedData
  citations : List Citation
  next_id : Nat
deriving DecidableEq

/-- Python truthiness of an optional string column value: None and the empty
string are falsy. -/
def truthyOptStr : Option String → Bool
  | some s => !s.isEmpty
  | none => false

/-- Python truthiness of an optional integer column value: None and 0 are falsy. -/
def truthyOptInt : Option Int → Bool
  | some n => n != 0
  | none => false

/-- src/database/crud.py, get_paper_by_id: first paper with the given id. -/
def get_paper_by_id (db : DB) (paper_id : Nat) : Option Paper :=
  db.papers.find? (fun p => p.id == paper_id)

/-- src/database/crud.py, get_paper_by_doi. -/
def get_paper_by_doi (db : DB) (doi : String) : Option Paper :=
  db.papers.find? (fun p => p.doi == some doi)

/-- src/database/crud.py, create_paper.  The papers.doi column is declared
unique (src/database/models.py line 28), so the commit of a second row with
the same non-null DOI raises an integrity error; that rejected commit is
modelled by the error branch, which leaves the store unchanged. -/
def create_paper (db : DB) (title abstract authors : String) (status : PaperStatus)
    (publication_year : Option Int) (doi url local_path : Option String) :
    Except String (DB × Paper) :=
  if doi.isSome && db.papers.any (fun p => p.doi == doi) then
    Except.error "IntegrityError: UNIQUE constraint failed: papers.doi"
  else
    let db_paper : Paper :=
      { id := db.next_id, title := title, abstract := abstract, authors := authors,
        publication_year := publication_year, doi := doi, url := url,
        local_path := local_path, status := status }
    Except.ok ({ db with papers := db.papers ++ [db_paper], next_id := db.next_id + 1 },
               db_paper)

/-- src/database/crud.py, update_paper_status: an unconditional write of the
new status on the paper with the given id (no comparison with the current
status). -/
def update_paper_status (db : DB) (paper_id : Nat) (new_status : PaperStatus) : DB :=
  { db with papers := db.papers.map (fun p =>
      if p.id == paper_id then { p with status := new_status } else p) }

/-- The per-row field update of src/database/crud.py, update_paper_details
(lines 69-76): every argument is guarded by Python truthiness, so a falsy
argument (None, empty string, zero) leaves its field unchanged; a status
argument, being an enum member, is truthy exactly when it is supplied. -/
def apply_details (p : Paper) (title abstract authors : Option String)
    (publication_year : Option Int) (doi url local_path : Option String)
    (status : Option PaperStatus) : Paper :=
  { p with
    title := if truthyOptStr title then title.getD p.title else p.title,
    abstract := if truthyOptStr abstract then abstract.getD p.abstract else p.abstract,
    authors := if truthyOptStr authors then authors.getD p.authors else p.authors,
    publication_year :=
      if truthyOptInt publication_year then publication_year else p.publication_year,
    doi := if truthyOptStr doi then doi else p.doi,
    url := if truthyOptStr url then url else p.url,
    local_path := if truthyOptStr local_path then local_path else p.local_path,
    status := match status with
      | some s => s
      | none => p.status }

/-- src/database/crud.py, update_paper_details.  A missing paper means no
update and no commit.  The papers.doi column is unique (src/database/models.py
line 28): committing a truthy doi argument that another row already holds
raises an integrity error and persists nothing, modelled by the error
branch; otherwise the truthiness-guarded field updates are committed. -/
def update_paper_details (db : DB) (paper_id : Nat) (title abstract authors : Option String)
    (publication_year : Option Int) (doi url local_path : Option String)
    (status : Option PaperStatus) : Except String DB :=
  match db.papers.find? (fun p => p.id == paper_id) with
  | none => Except.ok db
  | some _ =>
    if truthyOptStr doi &&
        db.papers.any (fun q => !(q.id == paper_id) && q.doi == doi) then
      Except.error "IntegrityError: UNIQUE constraint failed: papers.doi"
    else
      Except.ok { db with papers := db.papers.map (fun p =>
        if p.id == paper_id then
          apply_details p title abstract authors publication_year doi url local_path
            status
        else p) }

/-- src/database/crud.py, get_topic_by_name: case-insensitive lookup. -/
def get_topic_by_name (db : DB) (name : String) : Option Topic :=
  db.topics.find? (fun t => t.name.toLower == name.toLower)

/-- src/database/crud.py, get_topic_by_id. -/
def get_topic_by_id (db : DB) (topic_id : Nat) : Option Topic :=
  db.topics.find? (fun t => t.id == topic_id)

/-- src/database/crud.py, create_topic. -/
def create_topic (db : DB) (name : String) : DB × Topic :=
  let db_topic : Topic := { id := db.next_id, name := name }
  ({ db with topics := db.topics ++ [db_topic], next_id := db.next_id + 1 }, db_topic)

/-- src/database/crud.py, add_paper_to_topic: inserts the association only
when it is not already present, and returns True in both cases. -/
def add_paper_to_topic (db : DB) (paper_id topic_id : Nat) : DB × Bool :=
  if db.paper_topics.any (fun pt => pt.paper_id == paper_id && pt.topic_id == topic_id) then
    (db, true)
  else
    ({ db with paper_topics := db.paper_topics ++ [⟨paper_id, topic_id⟩] }, true)

/-- src/database/crud.py, get_papers_by_topic: papers joined through the
association table. -/
def get_papers_by_topic (db : DB) (topic_id : Nat) : List Paper :=
  db.papers.filter (fun p =>
    db.paper_topics.any (fun pt => pt.paper_id == p.id && pt.topic_id == topic_id))

/-- src/database/crud.py, create_summary: a plain insert with no
duplicate check. -/
def create_summary (db : DB) (summary_type : SummaryType) (content : String)
    (paper_id topic_id : Option Nat) (audio_path : Option String) : DB × Summary :=
  let db_summary : Summary :=
    { id := db.next_id, paper_id := paper_id, topic_id := topic_id,
      summary_type := summary_type, content := content, audio_path := audio_path }
  ({ db with summaries := db.summaries ++ [db_summary], next_id := db.next_id + 1 },
   db_summary)

/-- src/database/crud.py, create_extracted_data (the JSON extras are not
passed by the ingestion agent and stay None).  The extracted_data.paper_id
column is declared unique (src/database/models.py line 81), so committing a
second row for the same paper raises an integrity error; that rejected
commit is modelled by the error branch, which leaves the store unchanged. -/
def create_extracted_data (db : DB) (paper_id : Nat) (full_text_path : Option String) :
    Except String (DB × ExtractedData) :=
  if db.extracted_data.any (fun e => e.paper_id == paper_id) then
    Except.error "IntegrityError: UNIQUE constraint failed: extracted_data.paper_id"
  else
    let row : ExtractedData :=
      { id := db.next_id, paper_id := paper_id, full_text_path := full_text_path }
    Except.ok
      ({ db with
         extracted_data := db.extracted_data ++ [row]
         next_id := db.next_id + 1 },
       row)

/-- src/database/crud.py, get_extracted_data_by_paper_id. -/
def get_extracted_data_by_paper_id (db : DB) (paper_id : Nat) : Option ExtractedData :=
  db.extracted_data.find? (fun e => e.paper_id == paper_id)

/-- src/database/crud.py, create_citation. -/
def create_citation (db : DB) (paper_id : Nat) (citation_text : String)
    (bibtex_entry doi authors title : Option String) (year : Option Int) :
    DB × Citation :=
  let row : Citation :=
    { id := db.next_id, paper_id := paper_id, citation_text := citation_text,
      bibtex_entry := bibtex_entry, doi := doi, authors := authors, title := title,
      year := year }
  ({ db with citations := db.citations ++ [row], next_id := db.next_id + 1 }, row)

/-- Number of Summary rows for a given owning paper and summary type. -/
def summary_rows_for (db : DB) (pid : Option Nat) (ty : SummaryType) : Nat :=
  db.summaries.countP (fun s => decide (s.paper_id = pid ∧ s.summary_type = ty))

/-- The ordering on statuses asserted by the spec (P1): PENDING less than
PROCESSING less than PROCESSED less than CLASSIFIED/SUMMARIZED, with FAILED
terminal (nothing may overwrite it, so it sits above every other state). -/
def status_rank : PaperStatus → Nat
  | PaperStatus.PENDING => 0
  | PaperStatus.PROCESSING => 1
  | PaperStatus.PROCESSED => 2
  | PaperStatus.CLASSIFIED => 3
  | PaperStatus.SUMMARIZED => 3
  | PaperStatus.FAILED => 4

/-- Outcome of one execution of a task body: either a normal return (of an
optional identifier) or a raised exception, which the task queue turns into
a retry (the agents call self.retry inside their except blocks). -/
inductive TaskOutcome (α : Type) where
  | done : Option α → TaskOutcome α
  | raised : TaskOutcome α
deriving DecidableEq

/-- Oracle environment for the external collaborators the ingestion and
classification task bodies call.  Each field models the value returned by
one collaborator call site.  Collaborators whose helpers catch their own
exceptions and return empty values are total: pdf and html extraction
(src/utils/pdf_parser.py, src/utils/web_scraper.py) and the text-file save
(src/utils/file_utils.py save_text_to_file, which returns the path or None
on an IO error, never raising into the task).  The classification agent
reads the text file with a bare open, which can raise into its try block,
so readFile is Except valued. -/
structure Env where
  fileExists : String → Bool
  pdfText : String → String
  pdfMetaTitle : String → Option String
  pdfMetaAuthor : String → Option String
  urlText : String → String
  resolveDoi : String → Option String
  saveText : String → Option String
  readFile : String → Except Unit String
  llmClassify : Except Unit (Option String)

/-- Python fallback `x or y` for an optional string x: the fallback is used
when x is None or empty. -/
def or_falsy (x : Option String) (fallback : String) : String :=
  match x with
  | some s => if s.isEmpty then fallback else s
  | none => fallback

/-- One SQLAlchemy commit on a session holding the in-memory paper object:
all pending attribute changes of that object are flushed to its row.  Used
where the ingestion agent mutates the loaded paper (its url at line 50, its
fields via update_paper_details at lines 75-78) before committing. -/
def commit_paper (db : DB) (p : Paper) : DB :=
  { db with papers := db.papers.map (fun q => if q.id == p.id then p else q) }

/-- Python rendering of the publication year in the f-string of
src/utils/citation_manager.py format_citation (the dict key is present, so
a missing year renders as the string None). -/
def year_repr : Option Int → String
  | some y => toString y
  | none => "None"

/-- src/utils/citation_manager.py, format_citation with the default APA
style, as called by extract_and_store_citation: authors split on commas,
year in parentheses, empty journal field, then a doi or url suffix. -/
def format_citation_apa (title authors : String) (year : Option Int)
    (doi url : Option String) : String :=
  let authors_list := (authors.splitOn ",").map (fun a => a.trim)
  let formatted_authors :=
    if authors_list.length == 1 then authors_list.getD 0 ""
    else if authors_list.length == 2 then
      authors_list.getD 0 "" ++ " & " ++ authors_list.getD 1 ""
    else authors_list.getD 0 "" ++ " et al."
  let base := formatted_authors ++ " (" ++ year_repr year ++ "). " ++ title ++ ". ."
  if truthyOptStr doi then base ++ " doi:" ++ doi.getD ""
  else if truthyOptStr url then base ++ " " ++ url.getD ""
  else base

/-- Lines 69-105 of src/agents/ingestion_processing_agent.py: what
process_paper_task does once the full text (possibly absent) has been
fetched.  `paper` is the in-memory session object, carrying any pending url
change from the DOI branch.  On truthy text: save the text file
(save_text_to_file in src/utils/file_utils.py catches its own IO errors
and returns the path or None, so this step never raises), update the paper
details (title/authors fallbacks and status PROCESSED, committed together
with pending changes; no doi argument is passed, so this commit cannot
violate the papers.doi constraint), insert the ExtractedData row (whose
commit raises an integrity error when a row for the paper already exists,
falling into the except block of line 101: a FAILED write and a retry),
insert the Citation row built from the updated paper object
(src/utils/citation_manager.py extract_and_store_citation), and write
status PROCESSED again.  On falsy text: write FAILED and return None.
The returned list is the sequence of committed store states. -/
def finish_extraction (env : Env) (db1 : DB) (paper : Paper)
    (full_text : Option String) (meta_title meta_author : Option String) :
    List DB × TaskOutcome Nat :=
  if truthyOptStr full_text then
    let text_file_path := env.saveText (full_text.getD "")
    let paper2 := apply_details paper (some (or_falsy meta_title paper.title)) none
      (some (or_falsy meta_author paper.authors)) none none none none
      (some PaperStatus.PROCESSED)
    let db2 := commit_paper db1 paper2
    match create_extracted_data db2 paper.id text_file_path with
    | Except.error _ =>
      let dbf := update_paper_status db2 paper.id PaperStatus.FAILED
      ([db1, db2, dbf], TaskOutcome.raised)
    | Except.ok created =>
      let db3 := created.1
      let db4 := (create_citation db3 paper.id
        (format_citation_apa paper2.title paper2.authors paper2.publication_year
          paper2.doi paper2.url)
        none paper2.doi (some paper2.authors) (some paper2.title)
        paper2.publication_year).1
      let db5 := update_paper_status db4 paper.id PaperStatus.PROCESSED
      ([db1, db2, db3, db4, db5], TaskOutcome.done (some paper.id))
  else
    let dbf := commit_paper db1 { paper with status := PaperStatus.FAILED }
    ([db1, dbf], TaskOutcome.done none)

/-- src/agents/ingestion_processing_agent.py, process_paper_task (one
attempt): look the paper up, write PROCESSING, pick the source route
(local file if the path is truthy and the file exists, else DOI with
resolution and scraping, else URL scraping, else no source at all), then
hand the fetched text to finish_extraction.  The no-source branch writes
FAILED and returns None directly.  Returns the committed-state sequence
and the outcome. -/
def process_paper_task (env : Env) (db : DB) (paper_id : Nat) :
    List DB × TaskOutcome Nat :=
  match get_paper_by_id db paper_id with
  | none => ([], TaskOutcome.done none)
  | some paper =>
    let db1 := update_paper_status db paper.id PaperStatus.PROCESSING
    let paper1 := { paper with status := PaperStatus.PROCESSING }
    if truthyOptStr paper.local_path && env.fileExists (paper.local_path.getD "") then
      finish_extraction env db1 paper1
        (some (env.pdfText (paper.local_path.getD "")))
        (env.pdfMetaTitle (paper.local_path.getD ""))
        (env.pdfMetaAuthor (paper.local_path.getD ""))
    else if truthyOptStr paper.doi then
      let resolved := env.resolveDoi (paper.doi.getD "")
      if truthyOptStr resolved then
        let paper2 := { paper1 with url := some (resolved.getD "") }
        finish_extraction env db1 paper2 (some (env.urlText (resolved.getD ""))) none none
      else
        finish_extraction env db1 paper1 none none none
    else if truthyOptStr paper.url then
      finish_extraction env db1 paper1
        (some (env.urlText (paper.url.getD ""))) none none
    else
      let dbf := update_paper_status db1 paper.id PaperStatus.FAILED
      ([db1, dbf], TaskOutcome.done none)

/-- The store state after a task attempt: the last committed state, or the
initial state when nothing was committed. -/
def task_final (db : DB) (r : List DB × TaskOutcome Nat) : DB :=
  r.1.getLast?.getD db

/-- One iteration of the topic loop of classify_paper_task (lines 62-68 of
src/agents/topic_classification_agent.py): ensure the topic exists
(case-insensitive lookup, else create) and associate the paper with it. -/
def classify_topics_step (pid : Nat) (dbx : DB) (topic_name : String) : DB :=
  match get_topic_by_name dbx topic_name with
  | some topic => (add_paper_to_topic dbx pid topic.id).1
  | none =>
    let created := create_topic dbx topic_name
    (add_paper_to_topic created.1 pid created.2.id).1

/-- src/agents/topic_classification_agent.py, classify_paper_task (one
attempt): guards on a nonempty topic list, the paper, its ExtractedData and
a truthy text path (missing text writes FAILED); reads the text (a raised
error falls into the except block: FAILED plus retry); asks the classifier;
on a truthy answer different from the literal none it upserts each parsed
topic, associates the paper with it and writes CLASSIFIED; on None, an
empty answer or the literal none it writes nothing and returns the id. -/
def classify_paper_task (env : Env) (db : DB) (paper_id : Nat)
    (topic_list : List String) : DB × TaskOutcome Nat :=
  if topic_list.isEmpty then (db, TaskOutcome.done none)
  else
    match get_paper_by_id db paper_id with
    | none => (db, TaskOutcome.done none)
    | some paper =>
      match get_extracted_data_by_paper_id db paper.id with
      | none => (update_paper_status db paper.id PaperStatus.FAILED, TaskOutcome.done none)
      | some extracted_data =>
        if !truthyOptStr extracted_data.full_text_path then
          (update_paper_status db paper.id PaperStatus.FAILED, TaskOutcome.done none)
        else
          match env.readFile (extracted_data.full_text_path.getD "") with
          | Except.error _ =>
            (update_paper_status db paper.id PaperStatus.FAILED, TaskOutcome.raised)
          | Except.ok _ =>
            match env.llmClassify with
            | Except.error _ =>
              (update_paper_status db paper.id PaperStatus.FAILED, TaskOutcome.raised)
            | Except.ok classification_result =>
              if truthyOptStr classification_result &&
                  (classification_result.getD "").toLower != "none" then
                let classified_topics :=
                  (((classification_result.getD "").splitOn ",").map
                    (fun t => t.trim)).filter (fun t => !t.isEmpty)
                let db2 := classified_topics.foldl (classify_topics_step paper.id) db
                (update_paper_status db2 paper.id PaperStatus.CLASSIFIED,
                 TaskOutcome.done (some paper.id))
              else
                (db, TaskOutcome.done (some paper.id))

/-- src/utils/queue_manager.py, collect_task_results: walk the dispatched
handles in order; a handle that raises or times out on get is logged and
skipped, a handle whose task returned None is skipped, and every other
result is appended. -/
def collect_task_results (task_results : List (Except Unit (Option Nat))) : List Nat :=
  task_results.foldl (fun results t =>
    match t with
    | Except.ok (some r) => results ++ [r]
    | Except.ok none => results
    | Except.error _ => results) []

/-- The identifier delivered by a successful handle. -/
def ok_id : Except Unit (Option Nat) → Option Nat
  | Except.ok (some r) => some r
  | Except.ok none => none
  | Except.error _ => none

/-- src/main.py lines 310-324, the synthesis dispatch of
classify_and_summarize_papers: for each requested topic name, look the
topic up; collect the ids of papers in the topic whose status is PROCESSED;
dispatch one synthesis job carrying those ids when the list is nonempty,
otherwise skip the topic.  Unknown topic names are skipped. -/
def synthesis_dispatch (db : DB) (synthesis_topics_list : List String) :
    List (Nat × List Nat) :=
  synthesis_topics_list.foldl (fun synthesis_tasks topic_name =>
    match get_topic_by_name db topic_name with
    | some topic =>
      let papers_in_topic := get_papers_by_topic db topic.id
      let relevant_paper_ids :=
        (papers_in_topic.filter (fun p => p.status == PaperStatus.PROCESSED)).map
          (fun p => p.id)
      if relevant_paper_ids.isEmpty then synthesis_tasks
      else synthesis_tasks ++ [(topic.id, relevant_paper_ids)]
    | none => synthesis_tasks) []

/-- The empty store. -/
def empty_db : DB :=
  { papers := [], topics := [], paper_topics := [], summaries := [],
    extracted_data := [], citations := [], next_id := 1 }

/-- A concrete paper row with no source fields, used by concrete stores. -/
def sample_paper (i : Nat) (st : PaperStatus) : Paper :=
  { id := i, title := "Paper", abstract := "Abs", authors := "A, B",
    publication_year := some 2023, doi := none, url := none, local_path := none,
    status := st }

/-- A store holding one summarized paper. -/
def one_paper_db : DB :=
  { empty_db with papers := [sample_paper 1 PaperStatus.SUMMARIZED], next_id := 2 }

/-- A concrete paper with a local PDF source. -/
def local_paper : Paper :=
  { id := 1, title := "Paper", abstract := "Abs", authors := "A, B",
    publication_year := some 2023, doi := none, url := none,
    local_path := some "raw/p1.pdf", status := PaperStatus.PENDING }

/-- A store holding the pending local-file paper. -/
def local_db : DB := { empty_db with papers := [local_paper], next_id := 2 }

/-- An environment in which every collaborator call succeeds: the local file
exists, PDF extraction yields text, and file writes succeed. -/
def happy_env : Env :=
  { fileExists := fun _ => true, pdfText := fun _ => "full text",
    pdfMetaTitle := fun _ => none, pdfMetaAuthor := fun _ => none,
    urlText := fun _ => "", resolveDoi := fun _ => none,
    saveText := fun _ => some "processed/p1.txt",
    readFile := fun _ => Except.ok "full text",
    llmClassify := Except.ok none }

/-- Store for the synthesis-dispatch claim: topic T has two SUMMARIZED
contributing papers. -/
def synthesis_db_T : DB :=
  { empty_db with
    papers := [sample_paper 1 PaperStatus.SUMMARIZED,
               sample_paper 2 PaperStatus.SUMMARIZED]
    topics := [⟨1, "T"⟩]
    paper_topics := [⟨1, 1⟩, ⟨2, 1⟩]
    next_id := 10 }

/-- Store for the synthesis-dispatch claim: topic U has one PROCESSED
contributing paper and no summarized one. -/
def synthesis_db_U : DB :=
  { empty_db with
    papers := [sample_paper 3 PaperStatus.PROCESSED]
    topics := [⟨2, "U"⟩]
    paper_topics := [⟨3, 2⟩]
    next_id := 10 }

/-- A processed paper whose extracted text is on file, for the
classification claim. -/
def processed_paper : Paper := { local_paper with status := PaperStatus.PROCESSED }

/-- Store for the classification claim: one PROCESSED paper with its
ExtractedData row. -/
def classified_input_db : DB :=
  { empty_db with
    papers := [processed_paper]
    extracted_data := [⟨5, 1, some "processed/p1.txt"⟩]
    next_id := 6 }

/-- An environment whose classifier answers the literal None. -/
def none_answer_env : Env := { happy_env with llmClassify := Except.ok (some "None") }

/-- An environment whose classifier assigns one topic. -/
def ml_answer_env : Env :=
  { happy_env with llmClassify := Except.ok (some "Machine Learning") }

/-- Looking up by id commutes with an id-preserving per-row update. -/
theorem find?_map_update (l : List Paper) (pid : Nat) (f : Paper → Paper)
    (hf : ∀ q, q.id = pid → (f q).id = pid) :
    (l.map (fun q => if q.id == pid then f q else q)).find? (fun q => q.id == pid) =
      (l.find? (fun q => q.id == pid)).map f := by
  induction l with
  | nil => rfl
  | cons a l ih =>
    rw [List.map_cons]
    by_cases h : a.id = pid
    · have hb : (a.id == pid) = true := beq_iff_eq.mpr h
      have hfb : ((f a).id == pid) = true := beq_iff_eq.mpr (hf a h)
      simp [List.find?_cons, hb, hfb]
    · have hb : (a.id == pid) = false := by simp [h]
      simp [List.find?_cons, hb, -List.find?_map]
      simpa [-List.find?_map] using ih

/-- After update_paper_status, the row found for the id is the old row with
its status replaced. -/
theorem get_update_status (db : DB) (pid : Nat) (s : PaperStatus) :
    get_paper_by_id (update_paper_status db pid s) pid =
      (get_paper_by_id db pid).map (fun p => { p with status := s }) :=
  find?_map_update db.papers pid _ (fun _ hq => hq)

/-- After the per-row map that a successful update_paper_details commit
performs, the row found for the id is the old row with the
truthiness-guarded field updates applied. -/
theorem get_papers_map_details (db : DB) (pid : Nat) (t a au : Option String)
    (y : Option Int) (d u lp : Option String) (st : Option PaperStatus) :
    get_paper_by_id
        { db with papers := db.papers.map (fun p =>
            if p.id == pid then apply_details p t a au y d u lp st else p) } pid =
      (get_paper_by_id db pid).map (fun p => apply_details p t a au y d u lp st) :=
  find?_map_update db.papers pid _ (fun _ hq => hq)

/-- After a session commit of the in-memory paper object, the row found for
its id is that object. -/
theorem get_commit_paper (db : DB) (p2 : Paper) (pid : Nat) (hid : p2.id = pid) :
    get_paper_by_id (commit_paper db p2) pid =
      (get_paper_by_id db pid).map (fun _ => p2) := by
  subst hid
  exact find?_map_update db.papers p2.id (fun _ => p2) (fun _ _ => rfl)

/-- Replacing the extracted_data table and the id counter does not change
the papers table (the shape of a successful ExtractedData insert). -/
theorem get_append_extracted (db : DB) (l : List ExtractedData) (n : Nat)
    (pid : Nat) :
    get_paper_by_id { db with extracted_data := l, next_id := n } pid =
      get_paper_by_id db pid := rfl

/-- Inserting a Citation row does not change the papers table. -/
theorem get_create_citation (db : DB) (pid2 : Nat) (ct : String)
    (be d au t : Option String) (y : Option Int) (pid : Nat) :
    get_paper_by_id (create_citation db pid2 ct be d au t y).1 pid =
      get_paper_by_id db pid := rfl

/-- The association upsert returns True and leaves the papers table alone. -/
theorem add_paper_to_topic_papers (db : DB) (p t : Nat) :
    (add_paper_to_topic db p t).1.papers = db.papers ∧
      (add_paper_to_topic db p t).2 = true := by
  unfold add_paper_to_topic
  split <;> exact ⟨rfl, rfl⟩

/-- After the association upsert, the association is present. -/
theorem add_paper_to_topic_mem (db : DB) (p t : Nat) :
    ∃ pt ∈ (add_paper_to_topic db p t).1.paper_topics,
      pt.paper_id = p ∧ pt.topic_id = t := by
  unfold add_paper_to_topic
  split
  · next h =>
    rcases List.any_eq_true.mp h with ⟨pt, hmem, hpt⟩
    have hpt2 : pt.paper_id = p ∧ pt.topic_id = t := by simpa using hpt
    exact ⟨pt, hmem, hpt2.1, hpt2.2⟩
  · exact ⟨⟨p, t⟩, by simp, rfl, rfl⟩

/-- The association upsert only ever appends to the association table. -/
theorem add_paper_to_topic_mono (db : DB) (p t : Nat) (pt : PaperTopic)
    (h : pt ∈ db.paper_topics) : pt ∈ (add_paper_to_topic db p t).1.paper_topics := by
  unfold add_paper_to_topic
  split
  · exact h
  · simp [h]

/-- One classification-loop iteration does not change the papers table. -/
theorem classify_topics_step_papers (pid : Nat) (dbx : DB) (name : String) :
    (classify_topics_step pid dbx name).papers = dbx.papers := by
  unfold classify_topics_step
  cases get_topic_by_name dbx name with
  | some topic => exact (add_paper_to_topic_papers dbx pid topic.id).1
  | none => exact (add_paper_to_topic_papers _ pid _).1

/-- One classification-loop iteration leaves an association for the paper in
place. -/
theorem classify_topics_step_assoc (pid : Nat) (dbx : DB) (name : String) :
    (∃ pt ∈ dbx.paper_topics, pt.paper_id = pid) →
      ∃ pt ∈ (classify_topics_step pid dbx name).paper_topics, pt.paper_id = pid := by
  rintro ⟨pt, hmem, hpt⟩
  unfold classify_topics_step
  cases get_topic_by_name dbx name with
  | some topic => exact ⟨pt, add_paper_to_topic_mono dbx pid topic.id pt hmem, hpt⟩
  | none =>
    refine ⟨pt, add_paper_to_topic_mono _ pid _ pt ?_, hpt⟩
    exact hmem

/-- One classification-loop iteration establishes an association for the
paper. -/
theorem classify_topics_step_creates (pid : Nat) (dbx : DB) (name : String) :
    ∃ pt ∈ (classify_topics_step pid dbx name).paper_topics, pt.paper_id = pid := by
  unfold classify_topics_step
  cases get_topic_by_name dbx name with
  | some topic =>
    rcases add_paper_to_topic_mem dbx pid topic.id with ⟨pt, hmem, h1, _⟩
    exact ⟨pt, hmem, h1⟩
  | none =>
    rcases add_paper_to_topic_mem (create_topic dbx name).1 pid
      (create_topic dbx name).2.id with ⟨pt, hmem, h1, _⟩
    exact ⟨pt, hmem, h1⟩

/-- A foldl preserves any invariant its step preserves. -/
theorem foldl_invariant {α β : Type} (f : β → α → β) (P : β → Prop) (l : List α)
    (b : β) (hb : P b) (hstep : ∀ acc x, P acc → P (f acc x)) : P (l.foldl f b) := by
  induction l generalizing b with
  | nil => exact hb
  | cons x l ih => exact ih (f b x) (hstep b x hb)

/-- The collector foldl appends exactly the successful identifiers. -/
theorem collect_task_results_foldl (acc : List Nat)
    (l : List (Except Unit (Option Nat))) :
    l.foldl (fun results t =>
      match t with
      | Except.ok (some r) => results ++ [r]
      | Except.ok none => results
      | Except.error _ => results) acc = acc ++ l.filterMap ok_id := by
  induction l generalizing acc with
  | nil => simp
  | cons x l ih =>
    cases x with
    | ok v =>
      cases v with
      | none => simpa [ok_id] using ih acc
      | some r => simp [ok_id, ih (acc ++ [r])]
    | error e => simpa [ok_id] using ih acc

/-- The collector returns exactly the successful identifiers in order. -/
theorem collect_task_results_eq (l : List (Except Unit (Option Nat))) :
    collect_task_results l = l.filterMap ok_id := by
  have h := collect_task_results_foldl [] l
  simpa [collect_task_results] using h

/-- C1 (counterexample): the claim that no status-update operation ever
overwrites a higher status with a lower one is false of the code: on a
store whose only paper is SUMMARIZED, update_paper_status writes PROCESSED
over it, a strictly lower status in the ordering asserted by the spec. -/
theorem c1_counterexample :
    (get_paper_by_id one_paper_db 1).map Paper.status = some PaperStatus.SUMMARIZED ∧
    (get_paper_by_id (update_paper_status one_paper_db 1 PaperStatus.PROCESSED) 1).map
        Paper.status = some PaperStatus.PROCESSED ∧
    status_rank PaperStatus.PROCESSED < status_rank PaperStatus.SUMMARIZED := by
  refine ⟨rfl, rfl, ?_⟩
  decide

/-- C1 (amended): update_paper_status is an unconditional overwrite: after
update_paper_status the stored row for the id carries exactly the requested
status, whatever status it had before; no monotonic guard is applied, so a
lower status can and does replace a higher one (and a stage re-run after a
FAILED write sets the status back to PROCESSING). -/
theorem c1_status_update_is_unconditional_overwrite
    (db : DB) (pid : Nat) (s : PaperStatus) (p : Paper)
    (hp : get_paper_by_id db pid = some p) :
    get_paper_by_id (update_paper_status db pid s) pid =
      some { p with status := s } := by
  rw [get_update_status, hp, Option.map_some']

/-- Witness for the amended C1 theorem at a concrete store. -/
theorem c1_witness :
    get_paper_by_id (update_paper_status one_paper_db 1 PaperStatus.PENDING) 1 =
      some { sample_paper 1 PaperStatus.SUMMARIZED with status := PaperStatus.PENDING } :=
  c1_status_update_is_unconditional_overwrite one_paper_db 1 PaperStatus.PENDING
    (sample_paper 1 PaperStatus.SUMMARIZED) rfl

/-- C5: the fan-in collector returns exactly the identifiers delivered by
successful handles, in order; a handle that raises or times out contributes
nothing and does not abort collection of the remaining handles; when the
delivered identifiers are pairwise distinct (one handle per item), each
succeeded identifier appears exactly once. -/
theorem c5_fan_in_collects_exactly_successes
    (hs : List (Except Unit (Option Nat)))
    (hnd : (hs.filterMap ok_id).Nodup) :
    collect_task_results hs = hs.filterMap ok_id ∧
    (∀ i, i ∈ collect_task_results hs ↔ Except.ok (some i) ∈ hs) ∧
    (∀ i, Except.ok (some i) ∈ hs → (collect_task_results hs).count i = 1) ∧
    (∀ xs ys, collect_task_results (xs ++ Except.error () :: ys) =
      collect_task_results xs ++ collect_task_results ys) := by
  have hmem : ∀ i, i ∈ collect_task_results hs ↔ Except.ok (some i) ∈ hs := by
    intro i
    rw [collect_task_results_eq, List.mem_filterMap]
    constructor
    · rintro ⟨t, ht, hti⟩
      cases t with
      | error e => simp [ok_id] at hti
      | ok v =>
        cases v with
        | none => simp [ok_id] at hti
        | some r =>
          have hr : r = i := by simpa [ok_id] using hti
          exact hr ▸ ht
    · intro hmem2
      exact ⟨Except.ok (some i), hmem2, rfl⟩
  refine ⟨collect_task_results_eq hs, hmem, ?_, ?_⟩
  · intro i hi
    have hin : i ∈ collect_task_results hs := (hmem i).mpr hi
    rw [collect_task_results_eq] at hin ⊢
    exact List.count_eq_one_of_mem hnd hin
  · intro xs ys
    rw [collect_task_results_eq, collect_task_results_eq, collect_task_results_eq,
      List.filterMap_append, List.filterMap_cons]
    simp [ok_id]

/-- Witness for the C5 theorem on a concrete batch in which the second
handle raised and the third returned no result. -/
theorem c5_witness :
    collect_task_results
        [Except.ok (some 1), Except.error (), Except.ok none, Except.ok (some 4)] =
      List.filterMap ok_id
        [Except.ok (some 1), Except.error (), Except.ok none, Except.ok (some 4)] :=
  (c5_fan_in_collects_exactly_successes
    [Except.ok (some 1), Except.error (), Except.ok none, Except.ok (some 4)]
    (by decide)).1

/-- C8 (counterexample): create_summary is a plain insert, so invoking the
same successful write twice does not leave the store as a single invocation
does: two rows with the same owning item and summary type exist afterwards. -/
theorem c8_counterexample :
    summary_rows_for
        (create_summary
          (create_summary empty_db SummaryType.INDIVIDUAL_PAPER "sum" (some 1) none
            none).1
          SummaryType.INDIVIDUAL_PAPER "sum" (some 1) none none).1
        (some 1) SummaryType.INDIVIDUAL_PAPER = 2 ∧
    summary_rows_for
        (create_summary empty_db SummaryType.INDIVIDUAL_PAPER "sum" (some 1) none
          none).1
        (some 1) SummaryType.INDIVIDUAL_PAPER = 1 := by
  constructor <;> rfl

/-- C8 (amended): the Item-Topic association upsert is idempotent and never
an error (re-adding an existing association returns True and leaves the
store unchanged), but create_summary is not: every call appends one more
Summary row for the same item and type, so a repeated identical write
produces duplicate rows. -/
theorem c8_association_idempotent_summary_insert_duplicates :
    (∀ db pid tid,
      add_paper_to_topic (add_paper_to_topic db pid tid).1 pid tid =
        ((add_paper_to_topic db pid tid).1, true)) ∧
    (∀ db ty content pid tid ap,
      summary_rows_for (create_summary db ty content pid tid ap).1 pid ty =
        summary_rows_for db pid ty + 1) := by
  constructor
  · intro db pid tid
    by_cases h : (db.paper_topics.any
        fun pt => pt.paper_id == pid && pt.topic_id == tid) = true
    · simp [add_paper_to_topic, h]
    · have h2 : ((db.paper_topics ++ [(⟨pid, tid⟩ : PaperTopic)]).any
          fun pt => pt.paper_id == pid && pt.topic_id == tid) = true := by
        simp [List.any_append]
      simp [add_paper_to_topic, h, h2]
  · intro db ty content pid tid ap
    simp [summary_rows_for, create_summary, List.countP_append]

/-- C9: creating two items with the same present DOI is rejected by the
unique constraint on the DOI column: the first create succeeds, the second
raises an integrity error and persists nothing, and the store then holds
exactly one item bearing that DOI. -/
theorem c9_doi_uniqueness
    (db : DB) (d : String) (hd : d ≠ "")
    (h0 : (db.papers.any fun p => p.doi == some d) = false)
    (t1 a1 au1 t2 a2 au2 : String) (st1 st2 : PaperStatus)
    (y1 y2 : Option Int) (u1 u2 l1 l2 : Option String) :
    ∃ db1 p1,
      create_paper db t1 a1 au1 st1 y1 (some d) u1 l1 = Except.ok (db1, p1) ∧
      (∃ e, create_paper db1 t2 a2 au2 st2 y2 (some d) u2 l2 = Except.error e) ∧
      (db1.papers.countP fun p => p.doi == some d) = 1 := by
  have hforall : ∀ q ∈ db.papers, ¬((fun p : Paper => p.doi == some d) q = true) := by
    intro q hq hcon
    have : (db.papers.any fun p => p.doi == some d) = true :=
      List.any_eq_true.mpr ⟨q, hq, hcon⟩
    rw [h0] at this
    exact Bool.false_ne_true this
  have hcond1 : ¬(((some d).isSome && db.papers.any fun p => p.doi == some d) = true) := by
    simp [h0]
  refine ⟨{ db with
      papers := db.papers ++
        [{ id := db.next_id, title := t1, abstract := a1, authors := au1,
           publication_year := y1, doi := some d, url := u1, local_path := l1,
           status := st1 }]
      next_id := db.next_id + 1 },
    { id := db.next_id, title := t1, abstract := a1, authors := au1,
      publication_year := y1, doi := some d, url := u1, local_path := l1,
      status := st1 }, ?_, ?_, ?_⟩
  · simp only [create_paper]
    rw [if_neg hcond1]
  · refine ⟨"IntegrityError: UNIQUE constraint failed: papers.doi", ?_⟩
    simp only [create_paper]
    rw [if_pos (by simp [List.any_append])]
  · have hz : (db.papers.countP fun p => p.doi == some d) = 0 :=
      List.countP_eq_zero.mpr hforall
    simp [List.countP_append, hz]

/-- Witness for the C9 theorem at a concrete DOI and empty store. -/
theorem c9_witness :
    ∃ db1 p1,
      create_paper empty_db "T1" "A1" "Au1" PaperStatus.PENDING none
          (some "10.1000/xyz") none none = Except.ok (db1, p1) ∧
      (∃ e, create_paper db1 "T2" "A2" "Au2" PaperStatus.PENDING none
          (some "10.1000/xyz") none none = Except.error e) ∧
      (db1.papers.countP fun p => p.doi == some "10.1000/xyz") = 1 :=
  c9_doi_uniqueness empty_db "10.1000/xyz" (by decide) rfl
    "T1" "A1" "Au1" "T2" "A2" "Au2" PaperStatus.PENDING PaperStatus.PENDING
    none none none none none none

/-- C10: in update_paper_details every falsy argument (None, empty string,
zero year, absent status) leaves its field unchanged, and unsupplied fields
keep their prior value; when the commit succeeds (in particular whenever no
truthy doi argument collides with another row's unique DOI) the stored row
carries exactly the truthiness-guarded updates; consequently a text field
can never be cleared, a publication year of 0 can never be stored, and a
call in which every argument is falsy commits no change: it returns the
store identical. -/
theorem c10_falsy_arguments_leave_fields_unchanged
    (db : DB) (pid : Nat) (t a au : Option String) (y : Option Int)
    (d u lp : Option String) (st : Option PaperStatus) (p : Paper)
    (hp : get_paper_by_id db pid = some p) :
    (∀ db2, update_paper_details db pid t a au y d u lp st = Except.ok db2 →
      get_paper_by_id db2 pid = some (apply_details p t a au y d u lp st)) ∧
    (truthyOptStr t = false → (apply_details p t a au y d u lp st).title = p.title) ∧
    (truthyOptStr a = false →
      (apply_details p t a au y d u lp st).abstract = p.abstract) ∧
    (truthyOptStr au = false →
      (apply_details p t a au y d u lp st).authors = p.authors) ∧
    (truthyOptInt y = false →
      (apply_details p t a au y d u lp st).publication_year = p.publication_year) ∧
    (truthyOptStr d = false → (apply_details p t a au y d u lp st).doi = p.doi) ∧
    (truthyOptStr u = false → (apply_details p t a au y d u lp st).url = p.url) ∧
    (truthyOptStr lp = false →
      (apply_details p t a au y d u lp st).local_path = p.local_path) ∧
    (st = none → (apply_details p t a au y d u lp st).status = p.status) ∧
    ((apply_details p t a au y d u lp st).publication_year = some 0 →
      p.publication_year = some 0) ∧
    ((apply_details p t a au y d u lp st).title = "" → p.title = "") ∧
    (truthyOptStr t = false → truthyOptStr a = false → truthyOptStr au = false →
      truthyOptInt y = false → truthyOptStr d = false → truthyOptStr u = false →
      truthyOptStr lp = false → st = none →
      update_paper_details db pid t a au y d u lp st = Except.ok db) := by
  have hp' : db.papers.find? (fun q => q.id == pid) = some p := hp
  refine ⟨?_, ?_, ?_, ?_, ?_, ?_, ?_, ?_, ?_, ?_, ?_, ?_⟩
  · intro db2 hok
    simp only [update_paper_details, hp'] at hok
    by_cases hcol : (truthyOptStr d &&
        db.papers.any fun q => !(q.id == pid) && q.doi == d) = true
    · rw [if_pos hcol] at hok
      exact absurd hok (by simp)
    · rw [if_neg hcol] at hok
      injection hok with hdb2
      rw [← hdb2, get_papers_map_details, hp, Option.map_some']
  · intro h
    simp [apply_details, h]
  · intro h
    simp [apply_details, h]
  · intro h
    simp [apply_details, h]
  · intro h
    simp [apply_details, h]
  · intro h
    simp [apply_details, h]
  · intro h
    simp [apply_details, h]
  · intro h
    simp [apply_details, h]
  · intro h
    simp [apply_details, h]
  · intro h
    by_cases hy : truthyOptInt y = true
    · exfalso
      have h2 : (apply_details p t a au y d u lp st).publication_year = y := by
        simp [apply_details, hy]
      rw [h2] at h
      rw [h] at hy
      simp [truthyOptInt] at hy
    · have h2 : (apply_details p t a au y d u lp st).publication_year =
          p.publication_year := by
        simp [apply_details, Bool.eq_false_iff.mp (by simpa using hy)]
      rw [h2] at h
      exact h
  · intro h
    by_cases ht : truthyOptStr t = true
    · exfalso
      cases t with
      | none => simp [truthyOptStr] at ht
      | some s =>
        have h2 : (apply_details p (some s) a au y d u lp st).title = s := by
          simp [apply_details, ht, Option.getD]
        rw [h2] at h
        rw [h] at ht
        exact absurd ht (by decide)
    · have h2 : (apply_details p t a au y d u lp st).title = p.title := by
        simp [apply_details, Bool.eq_false_iff.mp (by simpa using ht)]
      rw [h2] at h
      exact h
  · intro h1 h2 h3 h4 h5 h6 h7 h8
    have happ : ∀ q : Paper, apply_details q t a au y d u lp st = q := by
      intro q
      simp [apply_details, h1, h2, h3, h4, h5, h6, h7, h8]
    have hmap : db.papers.map (fun q =>
        if q.id == pid then apply_details q t a au y d u lp st else q) = db.papers := by
      have hfun : (fun q : Paper =>
          if q.id == pid then apply_details q t a au y d u lp st else q) =
          fun q => q := by
        funext q
        by_cases hq : (q.id == pid) = true
        · rw [if_pos hq, happ q]
        · rw [if_neg hq]
      rw [hfun, List.map_id']
    simp only [update_paper_details, hp']
    rw [if_neg (by simp [h5])]
    rw [hmap]

/-- Witness for the C10 theorem: an all-falsy call on a concrete store
commits nothing and returns the store identical. -/
theorem c10_witness :
    update_paper_details one_paper_db 1 none none none none none none none none =
      Except.ok one_paper_db :=
  (c10_falsy_arguments_leave_fields_unchanged one_paper_db 1 none none none none
    none none none none (sample_paper 1 PaperStatus.SUMMARIZED)
    rfl).2.2.2.2.2.2.2.2.2.2.2 rfl rfl rfl rfl rfl rfl rfl rfl

/-- C2 (code divergence at the failing input): the CLI synthesis dispatcher
filters contributing papers by status PROCESSED, not SUMMARIZED, and
dispatches whenever at least one matches.  On a store where topic T has two
SUMMARIZED papers it dispatches no job (the claim requires exactly one job
carrying both identifiers), and on topic U with a single PROCESSED paper it
dispatches a job (the claim requires a skip); the dispatched job is also
one the synthesis task itself rejects, since the task only accepts
SUMMARIZED papers. -/
theorem c2_dispatch_diverges_from_claim :
    (synthesis_db_T.papers.filter fun p => p.status == PaperStatus.SUMMARIZED) =
      [sample_paper 1 PaperStatus.SUMMARIZED, sample_paper 2 PaperStatus.SUMMARIZED] ∧
    synthesis_dispatch synthesis_db_T ["T"] = [] ∧
    synthesis_dispatch synthesis_db_U ["U"] = [(2, [3])] := by
  have hT : get_topic_by_name synthesis_db_T "T" = some ⟨1, "T"⟩ := by
    simp [get_topic_by_name, synthesis_db_T, empty_db, List.find?_cons]
  have hU : get_topic_by_name synthesis_db_U "U" = some ⟨2, "U"⟩ := by
    simp [get_topic_by_name, synthesis_db_U, empty_db, List.find?_cons]
  refine ⟨rfl, ?_, ?_⟩
  · simp only [synthesis_dispatch, List.foldl_cons, List.foldl_nil, hT]
    simp [get_papers_by_topic, synthesis_db_T, empty_db, sample_paper]
  · simp only [synthesis_dispatch, List.foldl_cons, List.foldl_nil, hU]
    simp [get_papers_by_topic, synthesis_db_U, empty_db, sample_paper]

/-- Two stores with the same papers table agree on paper lookups. -/
theorem get_paper_by_id_congr_papers (db2 db : DB) (h : db2.papers = db.papers)
    (pid : Nat) : get_paper_by_id db2 pid = get_paper_by_id db pid := by
  unfold get_paper_by_id
  rw [h]

/-- String.toLower through the underlying character list (String.map is
otherwise not reducible by the kernel). -/
theorem toLower_eq_map_data (s : String) :
    s.toLower = ⟨s.data.map Char.toLower⟩ := String.map_eq Char.toLower s

/-- The classification topic loop never touches the papers table. -/
theorem classify_fold_papers (pid : Nat) (db : DB) (l : List String) :
    (l.foldl (classify_topics_step pid) db).papers = db.papers :=
  foldl_invariant _ (fun dbx => dbx.papers = db.papers) l db rfl
    (fun acc x hacc => by
      show (classify_topics_step pid acc x).papers = db.papers
      rw [classify_topics_step_papers]
      exact hacc)

/-- After the classification topic loop over a nonempty list of names, the
paper has at least one topic association. -/
theorem classify_fold_assoc (pid : Nat) (db : DB) (l : List String) (h : l ≠ []) :
    ∃ pt ∈ (l.foldl (classify_topics_step pid) db).paper_topics,
      pt.paper_id = pid := by
  cases l with
  | nil => exact absurd rfl h
  | cons x xs =>
    rw [List.foldl_cons]
    exact foldl_invariant _
      (fun dbx => ∃ pt ∈ dbx.paper_topics, pt.paper_id = pid) xs
      (classify_topics_step pid db x)
      (classify_topics_step_creates pid db x)
      (fun acc y hacc => classify_topics_step_assoc pid acc y hacc)

/-- The last committed state of a five-commit trace. -/
theorem getLast_of_five {α : Type} (a b c d e : α) :
    [a, b, c, d, e].getLast? = some e := rfl

/-- finish_extraction on truthy text for a fresh item (no pre-existing
ExtractedData row, so the insert commits cleanly): the outcome carries the
paper id; the final committed state has status PROCESSED plus an
ExtractedData row and a Citation row for the paper; and the trace contains
an earlier committed state that already shows status PROCESSED while its
extracted_data table is still the initial one. -/
theorem finish_extraction_success_spec (env : Env) (db1 : DB) (paper : Paper)
    (txt : String) (mt ma : Option String)
    (htxte : txt.isEmpty = false)
    (hfresh : (db1.extracted_data.any fun e => e.paper_id == paper.id) = false)
    (q1 : Paper) (hq1 : get_paper_by_id db1 paper.id = some q1) :
    (finish_extraction env db1 paper (some txt) mt ma).2 =
      TaskOutcome.done (some paper.id) ∧
    (∃ dbf, (finish_extraction env db1 paper (some txt) mt ma).1.getLast? = some dbf ∧
      (get_paper_by_id dbf paper.id).map Paper.status = some PaperStatus.PROCESSED ∧
      (dbf.extracted_data.any fun e => e.paper_id == paper.id) = true ∧
      (dbf.citations.any fun c => c.paper_id == paper.id) = true) ∧
    (∃ dbx ∈ (finish_extraction env db1 paper (some txt) mt ma).1,
      (get_paper_by_id dbx paper.id).map Paper.status = some PaperStatus.PROCESSED ∧
      dbx.extracted_data = db1.extracted_data) := by
  have hft : truthyOptStr (some txt) = true := by simp [truthyOptStr, htxte]
  have hcond : ¬(((commit_paper db1 (apply_details paper
      (some (or_falsy mt paper.title)) none (some (or_falsy ma paper.authors))
      none none none none (some PaperStatus.PROCESSED))).extracted_data.any
      fun e => e.paper_id == paper.id) = true) := by
    have hfr2 : ((commit_paper db1 (apply_details paper
        (some (or_falsy mt paper.title)) none (some (or_falsy ma paper.authors))
        none none none none (some PaperStatus.PROCESSED))).extracted_data.any
        fun e => e.paper_id == paper.id) = false := hfresh
    simp [hfr2]
  have hfe : finish_extraction env db1 paper (some txt) mt ma =
      (let paper2 := apply_details paper (some (or_falsy mt paper.title)) none
        (some (or_falsy ma paper.authors)) none none none none
        (some PaperStatus.PROCESSED)
      let db2 := commit_paper db1 paper2
      let db3 : DB :=
        { db2 with
          extracted_data := db2.extracted_data ++
            [{ id := db2.next_id, paper_id := paper.id,
               full_text_path := env.saveText txt }],
          next_id := db2.next_id + 1 }
      let db4 := (create_citation db3 paper.id
        (format_citation_apa paper2.title paper2.authors paper2.publication_year
          paper2.doi paper2.url)
        none paper2.doi (some paper2.authors) (some paper2.title)
        paper2.publication_year).1
      let db5 := update_paper_status db4 paper.id PaperStatus.PROCESSED
      ([db1, db2, db3, db4, db5], TaskOutcome.done (some paper.id))) := by
    rw [finish_extraction, if_pos hft, Option.getD_some]
    dsimp only
    rw [create_extracted_data, if_neg hcond]
  rw [hfe]
  dsimp only
  have hid2 : (apply_details paper (some (or_falsy mt paper.title)) none
      (some (or_falsy ma paper.authors)) none none none none
      (some PaperStatus.PROCESSED)).id = paper.id := rfl
  have hget2 : get_paper_by_id (commit_paper db1 (apply_details paper
      (some (or_falsy mt paper.title)) none (some (or_falsy ma paper.authors))
      none none none none (some PaperStatus.PROCESSED))) paper.id =
      some (apply_details paper (some (or_falsy mt paper.title)) none
        (some (or_falsy ma paper.authors)) none none none none
        (some PaperStatus.PROCESSED)) := by
    rw [get_commit_paper _ _ _ hid2, hq1, Option.map_some']
  refine ⟨rfl, ⟨_, getLast_of_five _ _ _ _ _, ?_, ?_, ?_⟩,
    ⟨commit_paper db1 (apply_details paper (some (or_falsy mt paper.title)) none
      (some (or_falsy ma paper.authors)) none none none none
      (some PaperStatus.PROCESSED)), ?_, ?_, ?_⟩⟩
  · rw [get_update_status, get_create_citation, get_append_extracted, hget2]
    rfl
  · simp [update_paper_status, create_citation, List.any_append]
  · simp [update_paper_status, create_citation, List.any_append]
  · simp
  · rw [hget2]
    rfl
  · rfl

/-- process_paper_task on a paper with a truthy local path whose file
exists: the local-PDF route is taken. -/
theorem process_paper_local_route (env : Env) (db : DB) (pid : Nat) (p : Paper)
    (lp : String) (hp : get_paper_by_id db pid = some p)
    (hlp : p.local_path = some lp) (hlpe : lp.isEmpty = false)
    (hfex : env.fileExists lp = true) :
    process_paper_task env db pid =
      finish_extraction env (update_paper_status db p.id PaperStatus.PROCESSING)
        { p with status := PaperStatus.PROCESSING }
        (some (env.pdfText lp)) (env.pdfMetaTitle lp) (env.pdfMetaAuthor lp) := by
  rw [process_paper_task, hp]
  simp [hlp, truthyOptStr, hlpe, hfex]

/-- C6 (counterexample): the claim that no reachable store state shows the
stage-complete status without the stage artifact is false: on a concrete
successful run, one of the committed states has status PROCESSED while the
extracted_data table is still empty. -/
theorem c6_counterexample :
    ∃ dbx ∈ (process_paper_task happy_env local_db 1).1,
      (get_paper_by_id dbx 1).map Paper.status = some PaperStatus.PROCESSED ∧
      dbx.extracted_data = [] := by
  have hroute := process_paper_local_route happy_env local_db 1 local_paper
    "raw/p1.pdf" rfl rfl rfl rfl
  have hroute2 : process_paper_task happy_env local_db 1 =
      finish_extraction happy_env (update_paper_status local_db 1 PaperStatus.PROCESSING)
        { local_paper with status := PaperStatus.PROCESSING }
        (some "full text") none none := hroute
  have hspec := finish_extraction_success_spec happy_env
    (update_paper_status local_db 1 PaperStatus.PROCESSING)
    { local_paper with status := PaperStatus.PROCESSING } "full text"
    none none rfl rfl
    { local_paper with status := PaperStatus.PROCESSING } rfl
  rcases hspec with ⟨_, _, ⟨dbx, hmem, hxstat, hxext⟩⟩
  refine ⟨dbx, ?_, ?_, ?_⟩
  · rw [hroute2]
    exact hmem
  · exact hxstat
  · rw [hxext]
    rfl

/-- C6 (amended): on a successful extraction of a fresh item, the status
advance and the artifact persist are separate sequential commits with the
status written first: the final committed state shows status PROCESSED with
the ExtractedData row present, but an earlier committed state of the same
run already shows status PROCESSED while no ExtractedData row for the item
exists. -/
theorem c6_status_commit_precedes_artifact_commit
    (env : Env) (db : DB) (pid : Nat) (p : Paper) (lp txt pathx : String)
    (hp : get_paper_by_id db pid = some p)
    (hlp : p.local_path = some lp) (hlpe : lp.isEmpty = false)
    (hfex : env.fileExists lp = true)
    (htext : env.pdfText lp = txt) (htxte : txt.isEmpty = false)
    (hsave : env.saveText txt = some pathx)
    (hfresh : (db.extracted_data.any fun e => e.paper_id == pid) = false) :
    ((get_paper_by_id (task_final db (process_paper_task env db pid)) pid).map
        Paper.status = some PaperStatus.PROCESSED ∧
      ((task_final db (process_paper_task env db pid)).extracted_data.any
        fun e => e.paper_id == pid) = true) ∧
    ∃ dbx ∈ (process_paper_task env db pid).1,
      (get_paper_by_id dbx pid).map Paper.status = some PaperStatus.PROCESSED ∧
      (dbx.extracted_data.any fun e => e.paper_id == pid) = false := by
  have hid : p.id = pid := by simpa using List.find?_some hp
  have hp2 : get_paper_by_id db p.id = some p := by rw [hid]; exact hp
  have hq1 : get_paper_by_id (update_paper_status db p.id PaperStatus.PROCESSING) p.id =
      some { p with status := PaperStatus.PROCESSING } := by
    rw [get_update_status, hp2, Option.map_some']
  have hfreshp : ((update_paper_status db p.id
      PaperStatus.PROCESSING).extracted_data.any
      fun e => e.paper_id == p.id) = false := by
    rw [hid]
    exact hfresh
  have hroute := process_paper_local_route env db pid p lp hp hlp hlpe hfex
  rw [htext] at hroute
  have hspec := finish_extraction_success_spec env
    (update_paper_status db p.id PaperStatus.PROCESSING)
    { p with status := PaperStatus.PROCESSING } txt
    (env.pdfMetaTitle lp) (env.pdfMetaAuthor lp) htxte hfreshp
    { p with status := PaperStatus.PROCESSING } hq1
  rcases hspec with ⟨_, ⟨dbf, hlast, hstat, hext, _⟩, ⟨dbx, hmem, hxstat, hxext⟩⟩
  have hfin : task_final db (process_paper_task env db pid) = dbf := by
    simp only [task_final]
    rw [hroute, hlast]
    rfl
  constructor
  · exact ⟨by rw [hfin, ← hid]; exact hstat, by rw [hfin, ← hid]; exact hext⟩
  · refine ⟨dbx, ?_, ?_, ?_⟩
    · rw [hroute]
      exact hmem
    · rw [← hid]
      exact hxstat
    · rw [hxext]
      exact hfresh

/-- Witness for the amended C6 theorem at a concrete store and environment. -/
theorem c6_witness :
    ((get_paper_by_id (task_final local_db (process_paper_task happy_env local_db 1))
        1).map Paper.status = some PaperStatus.PROCESSED ∧
      ((task_final local_db (process_paper_task happy_env local_db 1)).extracted_data.any
        fun e => e.paper_id == 1) = true) ∧
    ∃ dbx ∈ (process_paper_task happy_env local_db 1).1,
      (get_paper_by_id dbx 1).map Paper.status = some PaperStatus.PROCESSED ∧
      (dbx.extracted_data.any fun e => e.paper_id == 1) = false :=
  c6_status_commit_precedes_artifact_commit happy_env local_db 1 local_paper
    "raw/p1.pdf" "full text" "processed/p1.txt" rfl rfl rfl rfl rfl rfl rfl rfl

/-- classify_paper_task reduced to the classifier-answer branch, once the
guards (topic list, paper, extracted data, text file read) have passed. -/
theorem classify_paper_task_llm_branch
    (env : Env) (db : DB) (pid : Nat) (topic_list : List String) (p : Paper)
    (ed : ExtractedData) (ftxt : String) (res : Option String)
    (htl : topic_list.isEmpty = false)
    (hp : get_paper_by_id db pid = some p)
    (hed : get_extracted_data_by_paper_id db p.id = some ed)
    (hpath : truthyOptStr ed.full_text_path = true)
    (hftxt : env.readFile (ed.full_text_path.getD "") = Except.ok ftxt)
    (hres : env.llmClassify = Except.ok res) :
    classify_paper_task env db pid topic_list =
      if truthyOptStr res && ((res.getD "").toLower != "none") then
        (update_paper_status
          (((((res.getD "").splitOn ",").map (fun t => t.trim)).filter
            (fun t => !t.isEmpty)).foldl (classify_topics_step p.id) db) p.id
          PaperStatus.CLASSIFIED,
         TaskOutcome.done (some p.id))
      else (db, TaskOutcome.done (some p.id)) := by
  rw [classify_paper_task]
  simp [htl, hp, hed, hpath, hftxt, hres]

/-- C7 (counterexample): the claim that the item ends CLASSIFIED in either
completion case is false: with the classifier explicitly answering the
literal None, the task completes and returns the item id but the status
stays PROCESSED, which is not CLASSIFIED. -/
theorem c7_counterexample :
    (classify_paper_task none_answer_env classified_input_db 1
      ["Machine Learning"]).2 = TaskOutcome.done (some 1) ∧
    (get_paper_by_id (classify_paper_task none_answer_env classified_input_db 1
        ["Machine Learning"]).1 1).map Paper.status = some PaperStatus.PROCESSED ∧
    PaperStatus.PROCESSED ≠ PaperStatus.CLASSIFIED := by
  have h2 : "None".toLower = "none" := by
    rw [toLower_eq_map_data]
    decide
  have hb := classify_paper_task_llm_branch none_answer_env classified_input_db 1
    ["Machine Learning"] processed_paper ⟨5, 1, some "processed/p1.txt"⟩ "full text"
    (some "None") rfl rfl rfl rfl rfl rfl
  rw [if_neg (by simp [truthyOptStr, h2])] at hb
  rw [hb]
  exact ⟨rfl, rfl, by decide⟩

/-- C7 (amended): when the classification stage completes with a topic
assignment (a truthy classifier answer other than the literal none,
case-insensitively), the item moves to CLASSIFIED and its parsed topic
associations are written; when it completes with None, an empty answer or
the literal none, the store is left entirely untouched (the status is not
advanced and no associations are written); in both completion cases the
task returns the item identifier. -/
theorem c7_classification_completion
    (env : Env) (db : DB) (pid : Nat) (topic_list : List String) (p : Paper)
    (ed : ExtractedData) (ftxt : String)
    (htl : topic_list.isEmpty = false)
    (hp : get_paper_by_id db pid = some p)
    (hed : get_extracted_data_by_paper_id db pid = some ed)
    (hpath : truthyOptStr ed.full_text_path = true)
    (hftxt : env.readFile (ed.full_text_path.getD "") = Except.ok ftxt) :
    (∀ s, env.llmClassify = Except.ok (some s) → s.isEmpty = false →
      s.toLower ≠ "none" →
      (classify_paper_task env db pid topic_list).2 = TaskOutcome.done (some pid) ∧
      (get_paper_by_id (classify_paper_task env db pid topic_list).1 pid).map
        Paper.status = some PaperStatus.CLASSIFIED ∧
      ((((s.splitOn ",").map fun t => t.trim).filter fun t => !t.isEmpty) ≠ [] →
        ∃ pt ∈ (classify_paper_task env db pid topic_list).1.paper_topics,
          pt.paper_id = pid)) ∧
    (∀ cr, env.llmClassify = Except.ok cr →
      (truthyOptStr cr = false ∨ (cr.getD "").toLower = "none") →
      classify_paper_task env db pid topic_list = (db, TaskOutcome.done (some pid))) := by
  have hid : p.id = pid := by simpa using List.find?_some hp
  have hedp : get_extracted_data_by_paper_id db p.id = some ed := by
    rw [hid]
    exact hed
  constructor
  · intro s hres hse hlne
    have hcond : (truthyOptStr (some s) && (((some s).getD "").toLower != "none")) =
        true := by
      simp [truthyOptStr, hse, bne_iff_ne, hlne]
    have hb := classify_paper_task_llm_branch env db pid topic_list p ed ftxt
      (some s) htl hp hedp hpath hftxt hres
    rw [if_pos hcond] at hb
    rw [hid] at hb
    refine ⟨by rw [hb], ?_, ?_⟩
    · rw [hb]
      show (get_paper_by_id (update_paper_status _ pid PaperStatus.CLASSIFIED)
        pid).map Paper.status = some PaperStatus.CLASSIFIED
      rw [get_update_status,
        get_paper_by_id_congr_papers _ db (classify_fold_papers pid db _) pid, hp]
      rfl
    · intro hne
      rw [hb]
      rcases classify_fold_assoc pid db
        (((((some s).getD "").splitOn ",").map (fun t => t.trim)).filter
          (fun t => !t.isEmpty)) hne with ⟨pt, hm, hpt⟩
      exact ⟨pt, hm, hpt⟩
  · intro cr hres hcase
    have hcond : ¬((truthyOptStr cr && ((cr.getD "").toLower != "none")) = true) := by
      rcases hcase with h | h
      · simp [h]
      · simp [h]
    have hb := classify_paper_task_llm_branch env db pid topic_list p ed ftxt
      cr htl hp hedp hpath hftxt hres
    rw [if_neg hcond] at hb
    rw [hb, hid]

/-- Witness for the amended C7 theorem: a concrete run in which the
classifier answers the literal None leaves the store untouched and returns
the paper id. -/
theorem c7_witness :
    classify_paper_task none_answer_env classified_input_db 1 ["Machine Learning"] =
      (classified_input_db, TaskOutcome.done (some 1)) :=
  (c7_classification_completion none_answer_env classified_input_db 1
    ["Machine Learning"] processed_paper ⟨5, 1, some "processed/p1.txt"⟩ "full text"
    rfl rfl rfl rfl rfl).2 (some "None") rfl
    (Or.inr (by
      show "None".toLower = "none"
      rw [toLower_eq_map_data]
      decide))

